import Mathlib

/-!
Verification of the transientvariable/log-go structured-logging facade.

The Go sources (option.go, level.go, config.go of package log) are shallowly
embedded below.  Go machine integers are modelled as Int/Nat with explicit
reduction modulo 2^w where a Go conversion wraps; Go interface values (any)
are modelled by the closed inductive Value, whose vnil constructor is the nil
interface; a failed Go type assertion (a runtime panic) is modelled by
Except.error; the sync.Pool of Records is modelled as a list of pooled
records; the zerolog sink is modelled by the list of typed calls the
dispatcher issues against it.
-/

namespace log

/-- zerolog levels are an int8 in Go; modelled as Int.  Level is the type
alias declared in level.go. -/
abbrev Level := Int

def LevelDebug : Level := 0

def LevelInfo : Level := 1

def LevelWarn : Level := 2

def LevelError : Level := 3

def LevelFatal : Level := 4

def LevelPanic : Level := 5

def LevelNone : Level := 6

def LevelDisabled : Level := 7

def LevelTrace : Level := -1

/-- Go unicode.IsSpace: the Unicode White_Space property, as tested by
strings.TrimSpace. -/
def goIsSpace (c : Char) : Bool :=
  c = '\t' || c = '\n' || c.val = 11 || c.val = 12 || c = '\r' || c = ' ' ||
  c.val = 0x85 || c.val = 0xA0 || c.val = 0x1680 ||
  (0x2000 ≤ c.val && c.val ≤ 0x200A) ||
  c.val = 0x2028 || c.val = 0x2029 || c.val = 0x202F || c.val = 0x205F ||
  c.val = 0x3000

/-- Go strings.TrimSpace: drop leading and trailing Unicode white space. -/
def trimSpace (s : String) : String :=
  ((s.toList.dropWhile goIsSpace).reverse.dropWhile goIsSpace).reverse
    |> List.asString

/-- Go: type kind uint (record.go part of option.go sources). -/
abbrev kind := Nat

def kindAny : kind := 0

def kindBool : kind := 1

def kindDuration : kind := 2

def kindFloat64 : kind := 3

def kindFloat32 : kind := 4

def kindInt64 : kind := 5

def kindString : kind := 6

def kindTime : kind := 7

def kindUint64 : kind := 8

/-- A Go float32 value identified with its IEEE-754 bit pattern (distinct NaN
payloads are distinct values; ±0.0 are distinct bit patterns). -/
structure GoFloat32 where
  bits : Nat
  deriving DecidableEq

/-- A Go float64 value identified with its IEEE-754 bit pattern. -/
structure GoFloat64 where
  bits : Nat
  deriving DecidableEq

/-- Go math.Float32bits: the IEEE-754 bit pattern of a float32 as a uint32. -/
def Float32bits (f : GoFloat32) : Nat := f.bits % 2 ^ 32

/-- Go math.Float64bits: the IEEE-754 bit pattern of a float64 as a uint64. -/
def Float64bits (f : GoFloat64) : Nat := f.bits % 2 ^ 64

/-- Go time.Time: a wall-clock reading plus an optional monotonic-clock
reading (present on values obtained from time.Now, absent after Round(0),
marshalling, or construction from components). -/
structure GoTime where
  wall : Int
  mono : Option Int
  deriving DecidableEq

/-- The runtime value held by a Go interface (any).  vnil is the nil
interface; vother covers opaque values passed to Any. -/
inductive Value where
  | vnil : Value
  | vbool (b : Bool) : Value
  | vint64 (n : Int) : Value
  | vuint32 (n : Nat) : Value
  | vuint64 (n : Nat) : Value
  | vfloat32 (f : GoFloat32) : Value
  | vfloat64 (f : GoFloat64) : Value
  | vstring (s : String) : Value
  | vduration (d : Int) : Value
  | vtime (t : GoTime) : Value
  | vother (tag : Nat) : Value
  deriving DecidableEq

/-- Go: type attr struct (value any; kind kind). -/
structure Attr where
  value : Value
  kind : kind
  deriving DecidableEq

/-- The Go map[string]attr modelled as an association list; none models the
nil map.  Insertion overwrites the binding of an existing key. -/
def mapInsert (m : List (String × Attr)) (key : String) (a : Attr) :
    List (String × Attr) :=
  match m with
  | [] => [(key, a)]
  | (k0, a0) :: rest =>
      if k0 = key then (key, a) :: rest else (k0, a0) :: mapInsert rest key a

def mapLookup (m : List (String × Attr)) (key : String) : Option Attr :=
  match m with
  | [] => none
  | (k0, a0) :: rest => if k0 = key then some a0 else mapLookup rest key

/-- Go: type Record struct (record.go sources); attrs none models the nil
map, ctx/err none model nil context and nil error. -/
structure Record where
  attrs : Option (List (String × Attr))
  ctx : Option Nat
  err : Option Nat
  msg : String
  deriving DecidableEq

/-- Go: func (r *Record) addAttr(key string, value any, kind kind). -/
def Record.addAttr (r : Record) (key : String) (value : Value) (k : kind) :
    Record :=
  let key := trimSpace key
  if key ≠ "" ∧ value ≠ Value.vnil then
    let m := r.attrs.getD []
    { r with attrs := some (mapInsert m key ⟨value, k⟩) }
  else r

/-- Go: func Context(ctx context.Context) func( *Record); sets the context
handle of the Record. -/
def Context (ctx : Option Nat) : Record → Record :=
  fun r => { r with ctx := ctx }

/-- Go: func Err(err error) func( *Record); sets the error handle of the
Record. -/
def Err (err : Option Nat) : Record → Record :=
  fun r => { r with err := err }

/-- The cleared state a fresh Record has (the sync.Pool New function returns
a zero-valued Record). -/
def emptyRecord : Record := ⟨none, none, none, ""⟩

/-- Go: func acquireRecord() *Record — take a pooled Record or construct a
zero-valued one. -/
def acquireRecord (pool : List Record) : Record × List Record :=
  match pool with
  | [] => (emptyRecord, [])
  | r :: rest => (r, rest)

/-- Go: func releaseRecord(r *Record) — clear every field of r and return it
to the pool.  The cleared record and the new pool are returned. -/
def releaseRecord (r : Record) (pool : List Record) : Record × List Record :=
  let r := { r with attrs := none }
  let r := { r with ctx := none }
  let r := { r with err := none }
  let r := { r with msg := "" }
  (r, r :: pool)

/-- Go: const callerSkipFrames = 3 (option.go). -/
def callerSkipFrames : Nat := 3

/-- One typed call issued by handleEvent against the zerolog event builder. -/
inductive SinkCall where
  | callerSkipFrame (n : Nat) : SinkCall
  | ctxCall (c : Option Nat) : SinkCall
  | errCall (e : Option Nat) : SinkCall
  | anyCall (key : String) (v : Value) : SinkCall
  | boolCall (key : String) (b : Bool) : SinkCall
  | durCall (key : String) (d : Int) : SinkCall
  | float32Call (key : String) (f : GoFloat32) : SinkCall
  | float64Call (key : String) (f : GoFloat64) : SinkCall
  | int64Call (key : String) (n : Int) : SinkCall
  | strCall (key : String) (s : String) : SinkCall
  | timeCall (key : String) (t : GoTime) : SinkCall
  | uint64Call (key : String) (n : Nat) : SinkCall
  | msgCall (m : String) : SinkCall
  deriving DecidableEq

/-- One arm of the kind switch of handleEvent: dispatch a stored attribute to
the matching typed sink call.  Each arm other than kindAny performs a Go type
assertion on the stored value; a failed assertion is a runtime panic,
modelled as Except.error.  An unrecognized kind tag is a no-op (ok none). -/
def dispatchAttr (key : String) (a : Attr) : Except String (Option SinkCall) :=
  if a.kind = kindAny then .ok (some (.anyCall key a.value))
  else if a.kind = kindBool then
    match a.value with
    | .vbool b => .ok (some (.boolCall key b))
    | _ => .error "interface conversion: interface is not bool"
  else if a.kind = kindDuration then
    match a.value with
    | .vduration d => .ok (some (.durCall key d))
    | _ => .error "interface conversion: interface is not time.Duration"
  else if a.kind = kindFloat32 then
    match a.value with
    | .vfloat32 f => .ok (some (.float32Call key f))
    | _ => .error "interface conversion: interface is not float32"
  else if a.kind = kindFloat64 then
    match a.value with
    | .vfloat64 f => .ok (some (.float64Call key f))
    | _ => .error "interface conversion: interface is not float64"
  else if a.kind = kindInt64 then
    match a.value with
    | .vint64 n => .ok (some (.int64Call key n))
    | _ => .error "interface conversion: interface is not int64"
  else if a.kind = kindString then
    match a.value with
    | .vstring s => .ok (some (.strCall key s))
    | _ => .error "interface conversion: interface is not string"
  else if a.kind = kindTime then
    match a.value with
    | .vtime t => .ok (some (.timeCall key t))
    | _ => .error "interface conversion: interface is not time.Time"
  else if a.kind = kindUint64 then
    match a.value with
    | .vuint64 n => .ok (some (.uint64Call key n))
    | _ => .error "interface conversion: interface is not uint64"
  else .ok none

/-- The attribute loop of handleEvent over the Record attribute map: each
attribute is dispatched in turn; the first failed type assertion aborts the
loop with a panic. -/
def drainAttrs (m : List (String × Attr)) : Except String (List SinkCall) :=
  match m with
  | [] => .ok []
  | (key, a) :: rest =>
      match dispatchAttr key a with
      | .error e => .error e
      | .ok none => drainAttrs rest
      | .ok (some c) =>
          match drainAttrs rest with
          | .error e => .error e
          | .ok cs => .ok (c :: cs)

/-- Go: func handleEvent(e *zerolog.Event, msg string, args ...func( *Record)).
Acquires a Record from the pool, applies the caller-supplied setters in
order, issues CallerSkipFrame/Ctx/Err, drains the attributes through the
kind switch, finalizes with the message, and releases the Record (the
deferred releaseRecord runs on the panic path as well, so the pool is
updated in either case). -/
def handleEvent (pool : List Record) (msg : String)
    (args : List (Record → Record)) :
    Except String (List SinkCall) × List Record :=
  let ar := acquireRecord pool
  let r := args.foldl (fun r f => f r) ar.1
  let head := [SinkCall.callerSkipFrame callerSkipFrames,
               SinkCall.ctxCall r.ctx, SinkCall.errCall r.err]
  let result :=
    match drainAttrs (r.attrs.getD []) with
    | .error e => .error e
    | .ok calls => .ok (head ++ calls ++ [SinkCall.msgCall msg])
  (result, (releaseRecord r ar.2).2)

/-- zerolog event construction: Logger.Debug() and friends return a non-nil
event iff the requested level is not below the logger level (the global
zerolog level is at its default, TraceLevel). -/
def zerologEvent (cfg : Level) (lvl : Level) : Option Level :=
  if cfg ≤ lvl then some lvl else none

/-- Go: func Log(level Level, msg string, args ...func( *Record)) (option.go).
cfg is the configured minimum level of the default logger (Default().
GetLevel()).  Returns the outcome of handleEvent when an event was
constructed (none when suppressed) and the resulting Record pool. -/
def Log (cfg : Level) (pool : List Record) (level : Level) (msg : String)
    (args : List (Record → Record)) :
    Option (Except String (List SinkCall)) × List Record :=
  let event : Option Level :=
    if level = LevelDebug then
      if cfg = LevelDebug ∨ cfg = LevelTrace then zerologEvent cfg LevelDebug
      else none
    else if level = LevelError then zerologEvent cfg LevelError
    else if level = LevelFatal then zerologEvent cfg LevelFatal
    else if level = LevelInfo then zerologEvent cfg LevelInfo
    else if level = LevelPanic then zerologEvent cfg LevelPanic
    else if level = LevelTrace then
      if cfg = LevelTrace then zerologEvent cfg LevelTrace else none
    else if level = LevelWarn then zerologEvent cfg LevelWarn
    else none
  match event with
  | none => (none, pool)
  | some _ =>
      let he := handleEvent pool msg args
      (some he.1, he.2)

/-- The io.Writer wrapped by a LevelWriter: the list of byte slices written
so far, and the (n, err) result the writer reports for a given slice. -/
structure Sink where
  writes : List (List Nat)
  ret : List Nat → Nat × Option Nat

/-- Go: w.Writer.Write(p) — append p to the sink and report its result. -/
def sinkWrite (s : Sink) (p : List Nat) : (Nat × Option Nat) × Sink :=
  (s.ret p, { s with writes := s.writes ++ [p] })

/-- Go: type LevelWriter struct (io.Writer; Level Level) (level.go). -/
structure LevelWriter where
  Writer : Sink
  Level : Level

/-- Go: func (w *LevelWriter) WriteLevel(level Level, p []byte) (level.go). -/
def WriteLevel (w : LevelWriter) (level : Level) (p : List Nat) :
    (Nat × Option Nat) × LevelWriter :=
  if level ≥ w.Level then
    let ws := sinkWrite w.Writer p
    (ws.1, { w with Writer := ws.2 })
  else ((p.length, none), w)

/-- The external key-path configuration source (config-go): for a dotted
path, an integer and an error; the error is some when the value is not
present or the lookup failed. -/
structure ConfigSource where
  lookup : String → Int × Option Nat

/-- Go: func intValue(path string, defaultValue int) int (option.go).  The
error returned by config.Int is discarded; only the sign of the integer is
inspected. -/
def intValue (cfg : ConfigSource) (path : String) (defaultValue : Int) :
    Int :=
  let s := (cfg.lookup path).1
  if s ≥ 0 then s else defaultValue

/-- Go: type Option struct (level string), the container for optional logger
properties. -/
structure Option where
  level : String

/-- Go: func WithLevel(level string) func( *Option) — sets the level Option
after trimming white space. -/
def WithLevel (level : String) : Option → Option :=
  fun o => { o with level := trimSpace level }

/-- Go: func New(options ...func( *Option)) *Logger — the logger returned is
characterized by its configured minimum level, which is what New selects via
the switch on the level string. -/
def New (options : List (Option → Option)) : Level :=
  let opts := options.foldl (fun o f => f o) ⟨""⟩
  if opts.level = "debug" then LevelDebug
  else if opts.level = "error" then LevelError
  else if opts.level = "fatal" then LevelFatal
  else if opts.level = "panic" then LevelPanic
  else if opts.level = "trace" then LevelTrace
  else if opts.level = "warn" then LevelWarn
  else LevelInfo

/-- Go: func Any(key string, value any) func( *Record). -/
def Any (key : String) (value : Value) : Record → Record :=
  fun r => r.addAttr key value kindAny

/-- Go: func Bool(key string, value bool) func( *Record). -/
def Bool (key : String) (value : Bool) : Record → Record :=
  fun r => r.addAttr key (Value.vbool value) kindBool

/-- Go: func Duration(key string, value time.Duration) func( *Record) —
stores uint64(value.Nanoseconds()) under kindDuration; the Go conversion of
the int64 nanosecond count to uint64 wraps modulo 2^64. -/
def Duration (key : String) (value : Int) : Record → Record :=
  fun r => r.addAttr key (Value.vuint64 ((value % 2 ^ 64).toNat)) kindDuration

/-- Go: func Int64(key string, value int64) func( *Record). -/
def Int64 (key : String) (value : Int) : Record → Record :=
  fun r => r.addAttr key (Value.vint64 value) kindInt64

/-- Go: func Float32(key string, value float32) func( *Record) — stores
math.Float32bits(value), a uint32, under kindFloat32. -/
def Float32 (key : String) (value : GoFloat32) : Record → Record :=
  fun r => r.addAttr key (Value.vuint32 (Float32bits value)) kindFloat32

/-- Go: func Float64(key string, value float64) func( *Record) — stores
math.Float64bits(value), a uint64, under kindFloat64. -/
def Float64 (key : String) (value : GoFloat64) : Record → Record :=
  fun r => r.addAttr key (Value.vuint64 (Float64bits value)) kindFloat64

/-- Go: func Time(key string, value time.Time) func( *Record) — the value is
stored verbatim (no call strips the monotonic reading before storage). -/
def Time (key : String) (value : GoTime) : Record → Record :=
  fun r => r.addAttr key (Value.vtime value) kindTime

/-- Go: func Uint64(key string, value uint64) func( *Record). -/
def Uint64 (key : String) (value : Nat) : Record → Record :=
  fun r => r.addAttr key (Value.vuint64 value) kindUint64

/-- Go: func Int(key string, value int) func( *Record) — converts to int64
and delegates to Int64. -/
def Int (key : String) (value : Int) : Record → Record :=
  Int64 key value

/-- Go: func String(key string, value string) func( *Record). -/
def String (key : String) (value : String) : Record → Record :=
  fun r => r.addAttr key (Value.vstring value) kindString

end log

/-- A wrapped sink that accepts every write and reports full success. -/
def sinkEx : log.Sink := ⟨[], fun p => (p.length, none)⟩

/-- A LevelWriter with threshold Warn over sinkEx. -/
def writerWarnEx : log.LevelWriter := ⟨sinkEx, log.LevelWarn⟩

/-- A LevelWriter with the Disabled sentinel as its threshold. -/
def writerDisabledEx : log.LevelWriter := ⟨sinkEx, log.LevelDisabled⟩

/-- A configuration source that reports every path as not present (error
set) with the Go zero value 0 as the integer. -/
def missingSource : log.ConfigSource := ⟨fun _ => (0, some 1)⟩

/-- A configuration source that reports every path as not present with a
negative integer. -/
def negSource : log.ConfigSource := ⟨fun _ => (-1, some 1)⟩

/-- A timestamp carrying a monotonic-clock reading (as from time.Now). -/
def tMono : log.GoTime := ⟨1000, some 42⟩

/-- The same wall-clock instant with the monotonic reading stripped (as
from Round(0)). -/
def tWall : log.GoTime := ⟨1000, none⟩

theorem mapLookup_mapInsert_self (m : List (String × log.Attr)) (k : String)
    (a : log.Attr) : log.mapLookup (log.mapInsert m k a) k = some a := by
  induction m with
  | nil => simp [log.mapInsert, log.mapLookup]
  | cons hd tl ih =>
      obtain ⟨k0, a0⟩ := hd
      by_cases h : k0 = k
      · simp [log.mapInsert, h, log.mapLookup]
      · simp [log.mapInsert, h, log.mapLookup, ih]

/-- C1: the claim fails in the code.  Float32/Float64 store the IEEE-754 bit
pattern as a Go uint32/uint64, but the kindFloat32/kindFloat64 arms of the
kind switch in handleEvent assert the stored value to float32/float64, so
the dispatch path panics on a failed type assertion for every float
attribute instead of reproducing the value; a full Log call at an admitted
level with a float attribute ends in that panic. -/
theorem float_bits_dispatch_panics (f : log.GoFloat32) (g : log.GoFloat64) :
    (log.Float32 "f" f log.emptyRecord).attrs =
      some [("f", ⟨log.Value.vuint32 (log.Float32bits f), log.kindFloat32⟩)] ∧
    log.dispatchAttr "f" ⟨log.Value.vuint32 (log.Float32bits f), log.kindFloat32⟩ =
      Except.error "interface conversion: interface is not float32" ∧
    (log.Log log.LevelInfo [] log.LevelInfo "m" [log.Float32 "f" f]).1 =
      some (Except.error "interface conversion: interface is not float32") ∧
    (log.Float64 "g" g log.emptyRecord).attrs =
      some [("g", ⟨log.Value.vuint64 (log.Float64bits g), log.kindFloat64⟩)] ∧
    log.dispatchAttr "g" ⟨log.Value.vuint64 (log.Float64bits g), log.kindFloat64⟩ =
      Except.error "interface conversion: interface is not float64" ∧
    (log.Log log.LevelInfo [] log.LevelInfo "m" [log.Float64 "g" g]).1 =
      some (Except.error "interface conversion: interface is not float64") :=
  ⟨rfl, rfl, rfl, rfl, rfl, rfl⟩

/-- C2: the claim fails in the code.  The Duration setter stores the
nanosecond count as a Go uint64, but the kindDuration arm of the kind switch
asserts time.Duration, so dispatch of a Duration attribute stored by the
public setter is a failed type assertion (a panic), not a typed sink
call. -/
theorem typed_setter_dispatch_panics (d : Int) :
    (log.Duration "d" d log.emptyRecord).attrs =
      some [("d", ⟨log.Value.vuint64 (d % 2 ^ 64).toNat, log.kindDuration⟩)] ∧
    log.dispatchAttr "d" ⟨log.Value.vuint64 (d % 2 ^ 64).toNat, log.kindDuration⟩ =
      Except.error "interface conversion: interface is not time.Duration" ∧
    (log.Log log.LevelInfo [] log.LevelInfo "m" [log.Duration "d" d]).1 =
      some (Except.error "interface conversion: interface is not time.Duration") :=
  ⟨rfl, rfl, rfl⟩

/-- C5: confirmed.  releaseRecord drops the attribute map (nil), clears the
context, error and message, and a Record acquired right after the release
exposes zero attributes, an empty message, no context and no error. -/
theorem releaseRecord_clears (r : log.Record) (pool : List log.Record) :
    (log.releaseRecord r pool).1.attrs = none ∧
    (log.releaseRecord r pool).1.ctx = none ∧
    (log.releaseRecord r pool).1.err = none ∧
    (log.releaseRecord r pool).1.msg = "" ∧
    (log.acquireRecord (log.releaseRecord r pool).2).1 = log.emptyRecord :=
  ⟨rfl, rfl, rfl, rfl, rfl⟩

theorem addAttr_lookup (r : log.Record) (k : String) (v : log.Value)
    (kd : Nat) (hk : log.trimSpace k ≠ "") (hv : v ≠ log.Value.vnil) :
    log.mapLookup ((r.addAttr k v kd).attrs.getD []) (log.trimSpace k) =
      some ⟨v, kd⟩ := by
  unfold log.Record.addAttr
  rw [if_pos ⟨hk, hv⟩]
  simp [mapLookup_mapInsert_self]

/-- C3 counterexample: the disabled sentinel threshold does not suppress
everything.  With threshold LevelDisabled, WriteLevel at level LevelDisabled
forwards the bytes to the wrapped sink (the sink records the write), where
the claim demands that the disabled threshold admit no level, including
itself, and perform no write. -/
theorem writeLevel_disabled_forwards :
    (log.WriteLevel writerDisabledEx log.LevelDisabled [1, 2]).2.Writer.writes
      = [[1, 2]] ∧
    (log.WriteLevel writerDisabledEx log.LevelDisabled [1, 2]).2.Writer.writes
      ≠ writerDisabledEx.Writer.writes :=
  ⟨rfl, by decide⟩

/-- C3 amended: WriteLevel forwards p to the wrapped sink and returns the
sink's result iff level ≥ threshold under the plain integer order, with no
special case for the disabled sentinel (threshold LevelDisabled admits level
LevelDisabled); when level < threshold it returns (len p, nil) and performs
no write. -/
theorem writeLevel_threshold (w : log.LevelWriter) (level : log.Level)
    (p : List Nat) :
    (level ≥ w.Level →
       (log.WriteLevel w level p).1 = w.Writer.ret p ∧
       (log.WriteLevel w level p).2.Writer.writes = w.Writer.writes ++ [p] ∧
       (log.WriteLevel w level p).2.Level = w.Level) ∧
    (level < w.Level → log.WriteLevel w level p = ((p.length, none), w)) := by
  constructor
  · intro h
    simp [log.WriteLevel, h, log.sinkWrite]
  · intro h
    simp [log.WriteLevel, not_le.mpr h]

theorem writeLevel_threshold_witness :
    (log.WriteLevel writerWarnEx log.LevelError [7]).2.Writer.writes = [[7]] ∧
    log.WriteLevel writerWarnEx log.LevelInfo [7] = ((1, none), writerWarnEx) :=
  ⟨((writeLevel_threshold writerWarnEx log.LevelError [7]).1 (by decide)).2.1,
   (writeLevel_threshold writerWarnEx log.LevelInfo [7]).2 (by decide)⟩

/-- C4: confirmed.  Log at LevelDebug constructs a sink event iff the
configured minimum level of the default logger is Debug or Trace; at
LevelTrace iff it is Trace; and whenever the check suppresses the event the
Record pool is untouched (no Record acquired, no setter applied, nothing
emitted). -/
theorem log_debug_trace_gate (cfg : log.Level) (pool : List log.Record)
    (msg : String) (args : List (log.Record → log.Record)) :
    ((log.Log cfg pool log.LevelDebug msg args).1 ≠ none ↔
       (cfg = log.LevelDebug ∨ cfg = log.LevelTrace)) ∧
    ((log.Log cfg pool log.LevelTrace msg args).1 ≠ none ↔
       cfg = log.LevelTrace) ∧
    ((log.Log cfg pool log.LevelDebug msg args).1 = none →
       (log.Log cfg pool log.LevelDebug msg args).2 = pool) ∧
    ((log.Log cfg pool log.LevelTrace msg args).1 = none →
       (log.Log cfg pool log.LevelTrace msg args).2 = pool) := by
  by_cases h0 : cfg = log.LevelDebug
  · subst h0
    simp [log.Log, log.zerologEvent, log.LevelDebug, log.LevelTrace,
      log.LevelError, log.LevelFatal, log.LevelInfo, log.LevelPanic,
      log.LevelWarn]
  · by_cases h1 : cfg = log.LevelTrace
    · subst h1
      simp [log.Log, log.zerologEvent, log.LevelDebug, log.LevelTrace,
        log.LevelError, log.LevelFatal, log.LevelInfo, log.LevelPanic,
        log.LevelWarn]
    · simp only [log.LevelDebug, log.LevelTrace] at h0 h1
      simp [log.Log, log.zerologEvent, log.LevelDebug, log.LevelTrace,
        log.LevelError, log.LevelFatal, log.LevelInfo, log.LevelPanic,
        log.LevelWarn, h0, h1]

theorem log_debug_trace_gate_witness :
    (log.Log log.LevelInfo [] log.LevelDebug "m" []).2 = [] ∧
    (log.Log log.LevelInfo [] log.LevelTrace "m" []).2 = [] :=
  ⟨(log_debug_trace_gate log.LevelInfo [] "m" []).2.2.1 rfl,
   (log_debug_trace_gate log.LevelInfo [] "m" []).2.2.2 rfl⟩

/-- C6: confirmed.  addAttr with a key that trims to empty or a nil value
leaves the Record unchanged (and cannot panic, being a no-op); otherwise the
attribute is stored under the trimmed key, and a second store under the same
trimmed key overwrites the first. -/
theorem addAttr_spec (r : log.Record) (k k2 : String) (v v2 : log.Value)
    (kd kd2 : Nat) :
    ((log.trimSpace k = "" ∨ v = log.Value.vnil) → r.addAttr k v kd = r) ∧
    (log.trimSpace k ≠ "" → v ≠ log.Value.vnil →
       log.mapLookup ((r.addAttr k v kd).attrs.getD []) (log.trimSpace k) =
         some ⟨v, kd⟩) ∧
    (log.trimSpace k2 = log.trimSpace k → log.trimSpace k2 ≠ "" →
       v2 ≠ log.Value.vnil →
       log.mapLookup (((r.addAttr k v kd).addAttr k2 v2 kd2).attrs.getD [])
         (log.trimSpace k) = some ⟨v2, kd2⟩) := by
  refine ⟨?_, ?_, ?_⟩
  · intro h
    unfold log.Record.addAttr
    rcases h with h | h
    · rw [if_neg]
      intro hc
      exact hc.1 h
    · rw [if_neg]
      intro hc
      exact hc.2 h
  · intro hk hv
    exact addAttr_lookup r k v kd hk hv
  · intro heq hne hv2
    rw [← heq]
    exact addAttr_lookup (r.addAttr k v kd) k2 v2 kd2 hne hv2

theorem addAttr_spec_witness :
    (log.Record.addAttr log.emptyRecord "  " (log.Value.vstring "alice")
       log.kindString = log.emptyRecord) ∧
    (log.Record.addAttr log.emptyRecord "user" log.Value.vnil log.kindAny =
       log.emptyRecord) ∧
    (log.mapLookup ((log.Record.addAttr log.emptyRecord " user "
       (log.Value.vstring "alice") log.kindString).attrs.getD [])
       (log.trimSpace " user ") =
       some ⟨log.Value.vstring "alice", log.kindString⟩) ∧
    (log.mapLookup (((log.Record.addAttr log.emptyRecord " user "
       (log.Value.vstring "alice") log.kindString).addAttr "user"
       (log.Value.vbool true) log.kindBool).attrs.getD [])
       (log.trimSpace " user ") =
       some ⟨log.Value.vbool true, log.kindBool⟩) :=
  ⟨(addAttr_spec log.emptyRecord "  " "x" (log.Value.vstring "alice")
      log.Value.vnil log.kindString log.kindAny).1 (Or.inl (by decide)),
   (addAttr_spec log.emptyRecord "user" "x" log.Value.vnil log.Value.vnil
      log.kindAny log.kindAny).1 (Or.inr rfl),
   (addAttr_spec log.emptyRecord " user " "x" (log.Value.vstring "alice")
      log.Value.vnil log.kindString log.kindAny).2.1 (by decide) (by decide),
   (addAttr_spec log.emptyRecord " user " "user" (log.Value.vstring "alice")
      (log.Value.vbool true) log.kindString log.kindBool).2.2 (by decide)
      (by decide) (by decide)⟩

/-- C7 counterexample: intValue discards the error from the configuration
source.  A source that reports the path as not present (error set) with the
Go zero value 0 makes intValue return 0, not the caller-supplied default
5. -/
theorem intValue_ignores_missing :
    (missingSource.lookup "log.file.size").2 = some 1 ∧
    log.intValue missingSource "log.file.size" 5 = 0 ∧
    log.intValue missingSource "log.file.size" 5 ≠ 5 :=
  ⟨rfl, rfl, by decide⟩

/-- C7 amended: intValue returns the integer reported by the configuration
source whenever that integer is non-negative — presence is ignored, the
error being discarded — and returns the caller-supplied default exactly when
the reported integer is negative. -/
theorem intValue_sign_only (cfg : log.ConfigSource) (p : String) (d : Int) :
    ((cfg.lookup p).1 ≥ 0 → log.intValue cfg p d = (cfg.lookup p).1) ∧
    ((cfg.lookup p).1 < 0 → log.intValue cfg p d = d) := by
  constructor
  · intro h
    simp [log.intValue, h]
  · intro h
    simp [log.intValue, not_le.mpr h]

theorem intValue_sign_only_witness :
    log.intValue missingSource "log.file.size" 5 = 0 ∧
    log.intValue negSource "log.file.size" 5 = 5 :=
  ⟨(intValue_sign_only missingSource "log.file.size" 5).1 (by decide),
   (intValue_sign_only negSource "log.file.size" 5).2 (by decide)⟩

/-- C9: confirmed.  Log at any level other than the seven named severities —
in particular the sentinels LevelNone and LevelDisabled — is a complete
no-op: no event is constructed, the Record pool is untouched, and nothing is
emitted. -/
theorem log_sentinel_noop (cfg : log.Level) (pool : List log.Record)
    (msg : String) (args : List (log.Record → log.Record)) (lvl : log.Level)
    (h1 : lvl ≠ log.LevelTrace) (h2 : lvl ≠ log.LevelDebug)
    (h3 : lvl ≠ log.LevelInfo) (h4 : lvl ≠ log.LevelWarn)
    (h5 : lvl ≠ log.LevelError) (h6 : lvl ≠ log.LevelFatal)
    (h7 : lvl ≠ log.LevelPanic) :
    log.Log cfg pool lvl msg args = (none, pool) := by
  simp only [log.LevelTrace, log.LevelDebug, log.LevelInfo, log.LevelWarn,
    log.LevelError, log.LevelFatal, log.LevelPanic] at h1 h2 h3 h4 h5 h6 h7
  simp [log.Log, log.LevelTrace, log.LevelDebug, log.LevelInfo,
    log.LevelWarn, log.LevelError, log.LevelFatal, log.LevelPanic,
    h1, h2, h3, h4, h5, h6, h7]

theorem log_sentinel_noop_witness :
    log.Log log.LevelInfo [] log.LevelNone "m" [log.Bool "b" true] =
      (none, []) ∧
    log.Log log.LevelTrace [] log.LevelDisabled "m" [] = (none, []) :=
  ⟨log_sentinel_noop log.LevelInfo [] "m" [log.Bool "b" true] log.LevelNone
     (by decide) (by decide) (by decide) (by decide) (by decide) (by decide)
     (by decide),
   log_sentinel_noop log.LevelTrace [] "m" [] log.LevelDisabled
     (by decide) (by decide) (by decide) (by decide) (by decide) (by decide)
     (by decide)⟩

/-- C10: confirmed.  New with no WithLevel option yields a logger at level
Info; with WithLevel s, the level is the one named by the trimmed string
when it is one of debug, error, fatal, panic, trace, warn, and Info for any
other string (including "info" itself, which is not a case of the switch and
lands on the default). -/
theorem new_level_selection (s : String) :
    log.New [] = log.LevelInfo ∧
    (log.trimSpace s = "debug" → log.New [log.WithLevel s] = log.LevelDebug) ∧
    (log.trimSpace s = "error" → log.New [log.WithLevel s] = log.LevelError) ∧
    (log.trimSpace s = "fatal" → log.New [log.WithLevel s] = log.LevelFatal) ∧
    (log.trimSpace s = "panic" → log.New [log.WithLevel s] = log.LevelPanic) ∧
    (log.trimSpace s = "trace" → log.New [log.WithLevel s] = log.LevelTrace) ∧
    (log.trimSpace s = "warn" → log.New [log.WithLevel s] = log.LevelWarn) ∧
    (log.trimSpace s ∉
       (["debug", "error", "fatal", "panic", "trace", "warn"] : List String) →
       log.New [log.WithLevel s] = log.LevelInfo) := by
  refine ⟨rfl, ?_, ?_, ?_, ?_, ?_, ?_, ?_⟩
  all_goals intro h
  case _ => simp [log.New, log.WithLevel, h]
  case _ => simp [log.New, log.WithLevel, h]
  case _ => simp [log.New, log.WithLevel, h]
  case _ => simp [log.New, log.WithLevel, h]
  case _ => simp [log.New, log.WithLevel, h]
  case _ => simp [log.New, log.WithLevel, h]
  case _ =>
    simp only [List.mem_cons, List.not_mem_nil, or_false, not_or] at h
    obtain ⟨g1, g2, g3, g4, g5, g6⟩ := h
    simp [log.New, log.WithLevel, g1, g2, g3, g4, g5, g6]

theorem new_level_selection_witness :
    log.New [log.WithLevel " warn "] = log.LevelWarn ∧
    log.New [log.WithLevel "info"] = log.LevelInfo ∧
    log.New [] = log.LevelInfo :=
  ⟨(new_level_selection " warn ").2.2.2.2.2.2.1 (by decide),
   (new_level_selection "info").2.2.2.2.2.2.2 (by decide),
   (new_level_selection "x").1⟩

/-- C8: the claim fails in the code.  Time stores the time.Time argument
verbatim, monotonic reading included (nothing strips it before storage), so
two timestamps with equal wall-clock reading but different monotonic
components produce different stored attribute values. -/
theorem time_keeps_monotonic :
    tMono.wall = tWall.wall ∧ tMono ≠ tWall ∧
    (log.Time "k" tMono log.emptyRecord).attrs ≠
      (log.Time "k" tWall log.emptyRecord).attrs ∧
    (log.Time "k" tMono log.emptyRecord).attrs =
      some [("k", ⟨log.Value.vtime tMono, log.kindTime⟩)] :=
  ⟨rfl, by decide, by decide, rfl⟩
